import Mathlib

/-!
# Verification of the worklog CLI (`log_script.py`)

A shallow embedding of the work-log journaling script. The interactive
prompt loops of `create_daily_entry` are modelled as an explicit state
machine over the list of input lines the user would type, in order; the
filesystem is modelled as a partial map from path strings to file
contents; each call of `datetime.now()` is modelled by an explicit
`Date` parameter. Python string primitives that the script uses
(`str.strip`, `str.split`, `str.startswith`) are embedded as structural
functions over `String.data` so that all definitions evaluate by kernel
reduction.
-/

namespace Worklog

/-- A calendar date, standing in for the Python `datetime` values the
script formats (it only ever reads year, month and day). -/
structure Date where
  year : Nat
  month : Nat
  day : Nat
deriving DecidableEq, Repr

/-- Zero-pad a number to two digits, as `strftime` does for `%m`/`%d`. -/
def pad2 (n : Nat) : String :=
  if n < 10 then "0" ++ toString n else toString n

/-- Zero-pad a number to four digits, as `strftime` does for `%Y`. -/
def pad4 (n : Nat) : String :=
  if n < 10 then "000" ++ toString n
  else if n < 100 then "00" ++ toString n
  else if n < 1000 then "0" ++ toString n
  else toString n

/-- `date.strftime("%Y-%m-%d")`. -/
def fmtYmd (d : Date) : String :=
  pad4 d.year ++ "-" ++ pad2 d.month ++ "-" ++ pad2 d.day

/-- `date.strftime("%Y_%m")`, the month-file name stem. -/
def fmtYM (d : Date) : String :=
  pad4 d.year ++ "_" ++ pad2 d.month

/-- English month names, used by `strftime("%B")`. -/
def monthNames : List String :=
  ["January", "February", "March", "April", "May", "June", "July",
   "August", "September", "October", "November", "December"]

/-- `date.strftime("%B %Y")`, used for the title line of a fresh month file. -/
def fmtBY (d : Date) : String :=
  monthNames.getD (d.month - 1) "" ++ " " ++ pad4 d.year

/-- Python `str.strip()`: drop leading and trailing whitespace. -/
def pyStrip (s : String) : String :=
  ⟨((s.data.dropWhile Char.isWhitespace).reverse.dropWhile Char.isWhitespace).reverse⟩

/-- Python `s.startswith(pre)`. -/
def pyStartsWith (s pre : String) : Bool :=
  pre.data.isPrefixOf s.data

/-- Worker for `pySplit`: scan the character list left to right, cutting
at each non-overlapping occurrence of `sep`. The fuel argument (the
length of the scanned list) only drives the recursion; each step
consumes at least one character, so the fuel never runs out. -/
def splitGo (sep : List Char) : Nat → List Char → List Char → List (List Char)
  | _, [], acc => [acc.reverse]
  | 0, l, acc => [acc.reverse ++ l]
  | fuel + 1, c :: rest, acc =>
    if sep.isPrefixOf (c :: rest) then
      acc.reverse :: splitGo sep fuel ((c :: rest).drop sep.length) []
    else
      splitGo sep fuel rest (c :: acc)

/-- Python `s.split(sep)` for a non-empty separator: cut `s` at each
non-overlapping occurrence of `sep`, scanning left to right. -/
def pySplit (sep : String) (s : String) : List String :=
  (splitGo sep.data s.data.length s.data []).map (fun l => ⟨l⟩)

/-- One element of the Python list `items` built by `create_daily_entry`:
either a bare string (only ever appended on a blank input line, hence
only ever the empty string) or an `(item, sub_items)` tuple. -/
inductive LogItem where
  | str (s : String)
  | pair (text : String) (subs : List String)
deriving DecidableEq, Repr

/-- Python truthiness of a list element as used in `not items[-1]`:
the empty string is falsy; a two-element tuple is always truthy. -/
def isEmptyItem : LogItem → Bool
  | .str s => s.isEmpty
  | .pair _ _ => false

/-- `items and not items[-1]` (line 88): the item list is non-empty and
its last element is falsy. -/
def lastFalsy (items : List LogItem) : Bool :=
  match items.getLast? with
  | some x => isEmptyItem x
  | none => false

/-- `sub_items and not sub_items[-1]` (line 102) for the sub-item loop,
whose elements are plain strings. -/
def lastEmptyStr (subItems : List String) : Bool :=
  match subItems.getLast? with
  | some s => s.isEmpty
  | none => false

/-- The control state of the nested prompt loops of `create_daily_entry`
(lines 83–112): either at the top-level item prompt (`>`), or inside the
nested sub-item prompt (`  >`) of the item `text`. -/
inductive PromptState where
  | topLevel (items : List LogItem)
  | subLevel (items : List LogItem) (text : String) (subs : List String)

/-- The two nested `while True` prompt loops of `create_daily_entry`
(lines 83–112) for one category, driven by the list of input lines.
Returns the final `items` list together with the unconsumed inputs when
the outer loop `break`s; `none` if the inputs run out first.
`topLevel` steps mirror lines 84–91 and the `items.append((item,
sub_items))` of line 112; `subLevel` steps mirror lines 96–110. -/
def collectRun : PromptState → List String → Option (List LogItem × List String)
  | _, [] => none
  | .topLevel items, i :: rest =>
    let item := pyStrip i
    if item.isEmpty then
      if items.isEmpty then some (items, rest)
      else if lastFalsy items then some (items.dropLast, rest)
      else collectRun (.topLevel (items ++ [.str item])) rest
    else collectRun (.subLevel items item []) rest
  | .subLevel items text subs, i :: rest =>
    let s := pyStrip i
    if s.isEmpty then
      if lastEmptyStr subs then
        collectRun (.topLevel (items ++ [.pair text subs.dropLast])) rest
      else if subs.isEmpty then
        collectRun (.topLevel (items ++ [.pair text subs])) rest
      else collectRun (.subLevel items text (subs ++ [s])) rest
    else collectRun (.subLevel items text (subs ++ [s])) rest

/-- One category's item-collection loop, started with the current
`items` list at the top-level prompt. -/
def collectItems (items : List LogItem) (inputs : List String) :
    Option (List LogItem × List String) :=
  collectRun (.topLevel items) inputs

/-- The `items` list carried by a prompt state. -/
def stateItems : PromptState → List LogItem
  | .topLevel items => items
  | .subLevel items _ _ => items

/-- No two adjacent elements of an item list are both falsy
(both empty strings). -/
def NoConsecEmpty (l : List LogItem) : Prop :=
  l.Chain' (fun a b => isEmptyItem a = false ∨ isEmptyItem b = false)

/-- The formatter's sub-item loop (lines 126–127):
`entry_text += f"    * {sub_item}\n"` for each sub-item. -/
def appendSubItems (acc : String) (sub_items : List String) : String :=
  sub_items.foldl (fun a sub_item => a ++ ("    * " ++ sub_item ++ "\n")) acc

/-- One iteration of the formatter's item loop (lines 122–129): a
`(main_item, sub_items)` tuple gets a bullet plus its sub-item lines, a
bare string just a bullet. -/
def appendItem (acc : String) (item : LogItem) : String :=
  match item with
  | LogItem.pair main_item sub_items =>
      appendSubItems (acc ++ ("* " ++ main_item ++ "\n")) sub_items
  | LogItem.str s => acc ++ ("* " ++ s ++ "\n")

/-- One iteration of the formatter's category loop (lines 119–130):
skip a category with an empty item list, otherwise emit its `###`
header, its items, and a trailing blank line. -/
def appendCategory (acc : String) (cat_items : String × List LogItem) : String :=
  if cat_items.2.isEmpty then acc
  else (cat_items.2.foldl appendItem (acc ++ ("### " ++ cat_items.1 ++ "\n"))) ++ "\n"

/-- The formatting half of `create_daily_entry` (lines 117–132),
operating on the insertion-ordered `entries` mapping, rendered here as
an ordered list of `(category, items)` pairs. The initial accumulator
is `f"\n{date_header}\n\n"` of line 118. -/
def create_daily_entry_text (date : Date) (entries : List (String × List LogItem)) : String :=
  entries.foldl appendCategory ("\n" ++ ("## " ++ fmtYmd date) ++ "\n\n")

/-- Rendering of one sub-item, following the spec's words: a 4-space
indented single-`*` line. -/
def renderSubItemSpec (s : String) : String := "    * " ++ s ++ "\n"

/-- Concatenation of a list of strings. -/
def concatAll : List String → String
  | [] => ""
  | s :: rest => s ++ concatAll rest

/-- Rendering of one item, following the spec's words: a `* <text>`
bullet, then one indented line per sub-item in collection order. -/
def renderItemSpec : LogItem → String
  | LogItem.pair text subs => "* " ++ text ++ "\n" ++ concatAll (subs.map renderSubItemSpec)
  | LogItem.str s => "* " ++ s ++ "\n"

/-- Rendering of one category, following the spec's words: nothing at
all when the item list is empty, otherwise a `### <category>` line, the
items in order, and a trailing blank line. -/
def renderCategorySpec (category : String) (items : List LogItem) : String :=
  if items.isEmpty then ""
  else "### " ++ category ++ "\n" ++ concatAll (items.map renderItemSpec) ++ "\n"

/-- Rendering of a whole entry, following the spec's words: a blank
line, the `## <date>` header, a blank line, then the categories in
mapping order. -/
def renderEntrySpec (date : Date) (entries : List (String × List LogItem)) : String :=
  "\n## " ++ fmtYmd date ++ "\n\n" ++
    concatAll (entries.map (fun p => renderCategorySpec p.1 p.2))

/-- The filesystem: a partial map from path strings to file contents. -/
abbrev FS : Type := String → Option String

/-- Writing one file, leaving every other path untouched. -/
def fsWrite (fs : FS) (p c : String) : FS :=
  fun q => if q = p then some c else fs q

/-- `create_log_directory` (lines 52–57): the `work_logs` directory
under the git root (directory creation itself has no observable effect
in this model). -/
def create_log_directory (gitRoot : String) : String :=
  gitRoot ++ "/work_logs"

/-- `get_log_file_path` (lines 60–64): the month file path for the
*current* date (`datetime.now()`), passed here as `now`. -/
def get_log_file_path (gitRoot : String) (now : Date) : String :=
  create_log_directory gitRoot ++ "/" ++ fmtYM now ++ ".md"

/-- `update_log_file` (lines 135–149): create the current month's file
with its title line if absent, then append the entry; returns the new
filesystem and the file path. -/
def update_log_file (gitRoot : String) (now : Date) (fs : FS) (entry : String) :
    FS × String :=
  let file_path := get_log_file_path gitRoot now
  let base :=
    match fs file_path with
    | some c => c
    | none => "# Work Log - " ++ fmtBY now ++ "\n"
  (fsWrite fs file_path (base ++ entry), file_path)

/-- The `log` command's write path (lines 179–187): format the entry
for `date` and append it via `update_log_file`, which uses `now`. -/
def log_cmd (gitRoot : String) (now date : Date)
    (entries : List (String × List LogItem)) (fs : FS) : FS × String :=
  update_log_file gitRoot now fs (create_daily_entry_text date entries)

/-- The `for section in sections: if section.startswith(...)` scan of
`view` (lines 228–231): the first section starting with the date string. -/
def findSection (dateStr : String) : List String → Option String
  | [] => none
  | s :: rest => if pyStartsWith s dateStr then some s else findSection dateStr rest

/-- The single-day branch of `view` (lines 216–232): locate the month
file of `d`, split its content on `"\n## "` and print the first section
that starts with the date string, re-prefixed with `"## "`. -/
def viewSingleDay (gitRoot : String) (fs : FS) (d : Date) : Except String String :=
  let file_path := create_log_directory gitRoot ++ "/" ++ fmtYM d ++ ".md"
  match fs file_path with
  | none => Except.error "No logs found for specified date"
  | some content =>
    match findSection (fmtYmd d) (pySplit "\n## " content) with
    | some sect => Except.ok ("## " ++ sect)
    | none => Except.error ("No entry found for " ++ fmtYmd d)

/-- The whole-month branch of `view` (lines 234–242): print the month
file of `m` verbatim. -/
def viewWholeMonth (gitRoot : String) (fs : FS) (m : Date) : Except String String :=
  let file_path := create_log_directory gitRoot ++ "/" ++ fmtYM m ++ ".md"
  match fs file_path with
  | none => Except.error "No logs found for specified month"
  | some content => Except.ok content

/-- Python truthiness of a `datetime` object: always true. -/
def datetimeTruthy (_ : Date) : Bool := true

/-- The `view` command (lines 199–246). The `--date` option defaults to
`datetime.now()`, so `date` is always a `datetime`; the `--month`
option defaults to `None`. The dispatch is `if date:`; in the `else`
branch Python would dereference `month.strftime`, which raises
`AttributeError` when `month` is `None`. -/
def view_cmd (gitRoot : String) (month : Option Date) (dateOpt : Option Date)
    (now : Date) (fs : FS) : Except String String :=
  let date := dateOpt.getD now
  if datetimeTruthy date then
    viewSingleDay gitRoot fs date
  else
    match month with
    | some m => viewWholeMonth gitRoot fs m
    | none => Except.error "AttributeError"

/-- `CONFIG_FILE` (line 9). -/
def CONFIG_FILE : String := "worklog_config.yaml"

/-- The `init` command (lines 249–259): if the configuration file
exists and the user declines the overwrite prompt, return without
touching anything; otherwise write the serialized default
configuration (`yaml.dump(DEFAULT_CONFIG)`, passed in as
`defaultYaml`). -/
def init_cmd (gitRoot : String) (fs : FS) (confirmAnswer : Bool)
    (defaultYaml : String) : FS :=
  let config_path := gitRoot ++ "/" ++ CONFIG_FILE
  if (fs config_path).isSome ∧ ¬confirmAnswer then fs
  else fsWrite fs config_path defaultYaml

/-!
## Helper lemmas
-/

theorem foldl_concat {α : Type} (g : String → α → String) (f : α → String)
    (hg : ∀ a x, g a x = a ++ f x) (l : List α) :
    ∀ acc : String, l.foldl g acc = acc ++ concatAll (l.map f) := by
  induction l with
  | nil => intro acc; simp [concatAll]
  | cons x xs ih =>
    intro acc
    rw [List.foldl_cons, ih, hg, List.map_cons]
    show _ = acc ++ concatAll (f x :: List.map f xs)
    rw [concatAll, String.append_assoc]

theorem appendSubItems_eq (sub_items : List String) (acc : String) :
    appendSubItems acc sub_items = acc ++ concatAll (sub_items.map renderSubItemSpec) :=
  foldl_concat _ renderSubItemSpec (fun _ _ => rfl) sub_items acc

theorem appendItem_eq (acc : String) (item : LogItem) :
    appendItem acc item = acc ++ renderItemSpec item := by
  cases item with
  | pair main subs =>
    rw [appendItem, appendSubItems_eq, renderItemSpec]
    simp [String.append_assoc]
  | str s => rfl

theorem appendCategory_eq (acc : String) (p : String × List LogItem) :
    appendCategory acc p = acc ++ renderCategorySpec p.1 p.2 := by
  rw [appendCategory, renderCategorySpec]
  by_cases hp : p.2.isEmpty
  · simp [hp]
  · simp only [hp, if_false]
    rw [foldl_concat appendItem renderItemSpec appendItem_eq]
    simp [String.append_assoc]

theorem create_daily_entry_text_eq (date : Date) (entries : List (String × List LogItem)) :
    create_daily_entry_text date entries = renderEntrySpec date entries := by
  rw [create_daily_entry_text, renderEntrySpec,
    foldl_concat appendCategory (fun p => renderCategorySpec p.1 p.2) appendCategory_eq]
  congr 2

theorem noConsec_append_of_not_lastFalsy {l : List LogItem} {x : LogItem}
    (hl : NoConsecEmpty l) (h : lastFalsy l = false) : NoConsecEmpty (l ++ [x]) := by
  rw [NoConsecEmpty, List.chain'_append]
  refine ⟨hl, List.chain'_singleton x, ?_⟩
  intro a ha y _
  left
  have hla : l.getLast? = some a := Option.mem_def.mp ha
  simpa [lastFalsy, hla] using h

theorem noConsec_append_of_truthy {l : List LogItem} {x : LogItem}
    (hl : NoConsecEmpty l) (hx : isEmptyItem x = false) : NoConsecEmpty (l ++ [x]) := by
  rw [NoConsecEmpty, List.chain'_append]
  refine ⟨hl, List.chain'_singleton x, ?_⟩
  intro a _ y hy
  right
  have : y = x := by simpa using (Option.mem_def.mp hy).symm
  rw [this]
  exact hx

theorem noConsec_dropLast {l : List LogItem}
    (hl : NoConsecEmpty l) (h : lastFalsy l = true) :
    lastFalsy l.dropLast = false ∧ NoConsecEmpty l.dropLast := by
  have hne : l ≠ [] := by
    intro e
    rw [e] at h
    simp [lastFalsy] at h
  have hsplit : l.dropLast ++ [l.getLast hne] = l := List.dropLast_append_getLast hne
  rw [NoConsecEmpty, ← hsplit, List.chain'_append] at hl
  obtain ⟨h1, _, h3⟩ := hl
  have hlast : isEmptyItem (l.getLast hne) = true := by
    simpa [lastFalsy, List.getLast?_eq_getLast l hne] using h
  constructor
  · cases hd : l.dropLast.getLast? with
    | none => simp [lastFalsy, hd]
    | some a =>
      have := h3 a (Option.mem_def.mpr hd) (l.getLast hne) (by simp)
      rcases this with ha | hb
      · simp [lastFalsy, hd, ha]
      · rw [hb] at hlast
        cases hlast
  · exact h1

/-- Invariant of the collector: starting from a state whose item list
has no two adjacent falsy elements, a terminating run yields an item
list with no trailing empty-string item and no two adjacent
empty-string items. -/
theorem collectRun_invariant :
    ∀ (inputs : List String) (st : PromptState) (res : List LogItem) (rest : List String),
      NoConsecEmpty (stateItems st) → collectRun st inputs = some (res, rest) →
      lastFalsy res = false ∧ NoConsecEmpty res := by
  intro inputs
  induction inputs with
  | nil =>
    intro st res rest _ h
    cases st <;> simp [collectRun] at h
  | cons i tl ih =>
    intro st res rest hst h
    cases st with
    | topLevel items =>
      simp only [collectRun] at h
      by_cases h1 : (pyStrip i).isEmpty = true
      · by_cases h2 : items.isEmpty = true
        · simp [h1, h2] at h
          obtain ⟨rfl, rfl⟩ := h
          rw [List.isEmpty_iff] at h2
          rw [h2]
          exact ⟨rfl, List.chain'_nil⟩
        · by_cases h3 : lastFalsy items = true
          · simp [h1, h2, h3] at h
            obtain ⟨rfl, rfl⟩ := h
            exact noConsec_dropLast hst h3
          · have h3' : lastFalsy items = false := by simpa using h3
            simp [h1, h2, h3] at h
            exact ih (.topLevel (items ++ [LogItem.str (pyStrip i)])) res rest
              (noConsec_append_of_not_lastFalsy hst h3') h
      · simp [h1] at h
        exact ih (.subLevel items (pyStrip i) []) res rest hst h
    | subLevel items text subs =>
      simp only [collectRun] at h
      by_cases h1 : (pyStrip i).isEmpty = true
      · by_cases h2 : lastEmptyStr subs = true
        · simp [h1, h2] at h
          exact ih (.topLevel (items ++ [LogItem.pair text subs.dropLast])) res rest
            (noConsec_append_of_truthy hst rfl) h
        · by_cases h3 : subs.isEmpty = true
          · simp [h1, h2, h3] at h
            exact ih (.topLevel (items ++ [LogItem.pair text subs])) res rest
              (noConsec_append_of_truthy hst rfl) h
          · simp [h1, h2, h3] at h
            exact ih (.subLevel items text (subs ++ [pyStrip i])) res rest hst h
      · simp [h1] at h
        exact ih (.subLevel items text (subs ++ [pyStrip i])) res rest hst h

/-!
## Claims
-/

/-- **C6.** For every date and every order-preserving mapping of
categories to item sequences, the Formatter emits a blank line, then
`## YYYY-MM-DD`, then a blank line; then, for each category with a
non-empty item list in mapping order: a `### <category>` line, one
`* <item text>` bullet per item in order, each sub-item on its own
4-space-indented `    * <sub-item text>` line in collection order, and
a trailing blank line after the category; categories with no items
contribute no output at all. -/
theorem C6_theorem (date : Date) (entries : List (String × List LogItem)) :
    create_daily_entry_text date entries = renderEntrySpec date entries :=
  create_daily_entry_text_eq date entries

/-- **C7.** For every existing monthly log file and every entry, the
Log Store's update leaves the file's prior content unchanged as a
prefix, appends exactly the entry text after it, and returns the
resolved file path; when the file does not exist, it is first created
containing only the title line `# Work Log - <Month Year>` for the
current month and year at creation time (then the entry is appended). -/
theorem C7_theorem (gitRoot : String) (now : Date) (fs : FS) (entry : String) :
    (update_log_file gitRoot now fs entry).2 = get_log_file_path gitRoot now ∧
    (∀ c, fs (get_log_file_path gitRoot now) = some c →
      (update_log_file gitRoot now fs entry).1 (get_log_file_path gitRoot now)
        = some (c ++ entry)) ∧
    (fs (get_log_file_path gitRoot now) = none →
      (update_log_file gitRoot now fs entry).1 (get_log_file_path gitRoot now)
        = some ("# Work Log - " ++ fmtBY now ++ "\n" ++ entry)) ∧
    (∀ q, q ≠ get_log_file_path gitRoot now →
      (update_log_file gitRoot now fs entry).1 q = fs q) := by
  refine ⟨rfl, ?_, ?_, ?_⟩
  · intro c hc
    simp [update_log_file, fsWrite, hc]
  · intro hc
    simp [update_log_file, fsWrite, hc]
  · intro q hq
    simp [update_log_file, fsWrite, hq]

/-- Witness for C7 at a concrete filesystem: appending `"E"` when the
May 2024 file holds `"OLD"` yields `"OLDE"` there and leaves another
month's file untouched. -/
theorem C7_witness :
    ((fun p => if p = "/work_logs/2024_05.md" then some "OLD" else none : FS)
        "/work_logs/2024_05.md" = some "OLD") ∧
    (update_log_file "" ⟨2024, 5, 20⟩
        (fun p => if p = "/work_logs/2024_05.md" then some "OLD" else none) "E").1
        "/work_logs/2024_05.md" = some ("OLD" ++ "E") ∧
    (update_log_file "" ⟨2024, 5, 20⟩
        (fun p => if p = "/work_logs/2024_05.md" then some "OLD" else none) "E").1
        "/work_logs/2024_04.md" = none := by
  have h := C7_theorem "" ⟨2024, 5, 20⟩
    (fun p => if p = "/work_logs/2024_05.md" then some "OLD" else none : FS) "E"
  exact ⟨by decide, h.2.1 "OLD" (by decide), by decide⟩

/-- **C9.** If the configuration file already exists and the user
answers the overwrite prompt negatively, a second run of `init` returns
without writing, leaving the existing configuration file (and the whole
filesystem) byte-unchanged. -/
theorem C9_theorem (gitRoot : String) (fs : FS) (defaultYaml : String) (c : String)
    (hex : fs (gitRoot ++ "/" ++ CONFIG_FILE) = some c) :
    init_cmd gitRoot fs false defaultYaml = fs := by
  simp [init_cmd, hex]

/-- Witness for C9: a filesystem holding an old configuration is
returned unchanged when the prompt is declined. -/
theorem C9_witness :
    ((fun p => if p = "/worklog_config.yaml" then some "OLD" else none : FS)
        ("" ++ "/" ++ CONFIG_FILE) = some "OLD") ∧
    init_cmd "" (fun p => if p = "/worklog_config.yaml" then some "OLD" else none)
        false "categories: []\n"
      = (fun p => if p = "/worklog_config.yaml" then some "OLD" else none) :=
  ⟨by decide, C9_theorem "" _ "categories: []\n" "OLD" (by decide)⟩

/-- **C1 counterexample.** Logging an entry dated 2024-04-15 while the
current date is 2024-05-20 writes to `work_logs/2024_05.md` (the
current month's file) and leaves `work_logs/2024_04.md` — the file of
the entry's own month — nonexistent, refuting the claim that the entry
is appended to the monthly file named for the month of the entry's own
date. -/
theorem C1_counterexample :
    (log_cmd "" ⟨2024, 5, 20⟩ ⟨2024, 4, 15⟩
        [("Projects", [LogItem.pair "x" []])] (fun _ => none)).2
      = "/work_logs/2024_05.md" ∧
    (log_cmd "" ⟨2024, 5, 20⟩ ⟨2024, 4, 15⟩
        [("Projects", [LogItem.pair "x" []])] (fun _ => none)).1
        "/work_logs/2024_04.md" = none ∧
    ("/work_logs/2024_05.md" : String) ≠ "/work_logs/2024_04.md" :=
  ⟨rfl, by decide, by decide⟩

/-- **C1 (amended).** The Log Store appends the rendered entry to the
monthly file named for the *current* month at invocation time
(`get_log_file_path` calls `datetime.now()`); the `--date` option only
changes the `## <date>` header inside the rendered text, never the
target file, and no other path is touched. -/
theorem C1_theorem (gitRoot : String) (now date : Date)
    (entries : List (String × List LogItem)) (fs : FS) :
    (log_cmd gitRoot now date entries fs).2 = get_log_file_path gitRoot now ∧
    (∀ p, p ≠ get_log_file_path gitRoot now →
      (log_cmd gitRoot now date entries fs).1 p = fs p) := by
  refine ⟨rfl, fun p hp => ?_⟩
  show fsWrite _ _ _ p = fs p
  rw [fsWrite, if_neg hp]

/-- Witness for C1 (amended): the run of the counterexample returns the
current month's path, and the April file is untouched. -/
theorem C1_witness :
    (log_cmd "" ⟨2024, 5, 20⟩ ⟨2024, 4, 15⟩
        [("Projects", [LogItem.pair "x" []])] (fun _ => none)).2
      = get_log_file_path "" ⟨2024, 5, 20⟩ ∧
    (log_cmd "" ⟨2024, 5, 20⟩ ⟨2024, 4, 15⟩
        [("Projects", [LogItem.pair "x" []])] (fun _ => none)).1
        "/work_logs/2024_04.md" = (fun _ => none : FS) "/work_logs/2024_04.md" := by
  have h := C1_theorem "" ⟨2024, 5, 20⟩ ⟨2024, 4, 15⟩
    [("Projects", [LogItem.pair "x" []])] (fun _ => none : FS)
  exact ⟨h.1, h.2 "/work_logs/2024_04.md" (by decide)⟩

/-- **C2 (code evaluated at the failing input).** Invoking `view` with
an explicit `--month 2024-01` and no `--date` on 2024-02-03, with the
January file present (content `"JAN"`), does not print the January
file: the `--date` default (`datetime.now()`) makes the dispatch take
the single-day branch, which fails with "No logs found for specified
date" because no February file exists. -/
theorem C2_theorem :
    view_cmd "" (some ⟨2024, 1, 1⟩) none ⟨2024, 2, 3⟩
        (fun p => if p = "/work_logs/2024_01.md" then some "JAN" else none)
      = Except.error "No logs found for specified date" ∧
    ((fun p => if p = "/work_logs/2024_01.md" then some "JAN" else none : FS)
        "/work_logs/2024_01.md" = some "JAN") ∧
    view_cmd "" (some ⟨2024, 1, 1⟩) none ⟨2024, 2, 3⟩
        (fun p => if p = "/work_logs/2024_01.md" then some "JAN" else none)
      ≠ Except.ok "JAN" := by
  refine ⟨rfl, by decide, ?_⟩
  intro h
  rw [show view_cmd "" (some ⟨2024, 1, 1⟩) none ⟨2024, 2, 3⟩
      (fun p => if p = "/work_logs/2024_01.md" then some "JAN" else none)
    = Except.error "No logs found for specified date" from rfl] at h
  exact Except.noConfusion h

/-- **C3 counterexample.** With the item list `[("a", [])]` already
collected, a single empty input line does *not* end the category's item
list: the run continues, collects `"b"`, and only the later pair of
consecutive empty lines stops it (exercising the pop-and-break guard,
which is therefore live, not dead, code).  If a single empty line ended
the list, the result would be `([("a", [])], ["b", "", "", ""])`. -/
theorem C3_counterexample :
    collectItems [LogItem.pair "a" []] ["", "b", "", "", ""]
      = some ([LogItem.pair "a" [], LogItem.str "", LogItem.pair "b" []], []) ∧
    collectItems [LogItem.pair "a" []] ["", "b", "", "", ""]
      ≠ some ([LogItem.pair "a" []], ["b", "", "", ""]) := by
  exact ⟨by decide, by decide⟩

/-- **C3 (amended).** In the per-category item loop, a single empty
input line (after whitespace trimming) ends the item list only when the
list is still empty; when the list is non-empty with a truthy (tuple)
last element, the empty line is itself appended as an empty-string item
and collection continues, and only a second consecutive empty line
triggers the drop-the-empty-item guard, which removes it and stops —
that guard is the normal termination path of a non-empty list, not dead
code. -/
theorem C3_theorem (items : List LogItem) (i : String) (rest : List String)
    (hi : (pyStrip i).isEmpty = true) :
    (items = [] → collectItems items (i :: rest) = some (items, rest)) ∧
    (lastFalsy items = true → collectItems items (i :: rest) = some (items.dropLast, rest)) ∧
    (items ≠ [] → lastFalsy items = false →
      collectItems items (i :: rest) = collectItems (items ++ [LogItem.str (pyStrip i)]) rest) := by
  refine ⟨?_, ?_, ?_⟩
  · intro he
    subst he
    simp [collectItems, collectRun, hi]
  · intro hlast
    have hne : items.isEmpty = false := by
      cases items with
      | nil => simp [lastFalsy] at hlast
      | cons a l => rfl
    simp [collectItems, collectRun, hi, hne, hlast]
  · intro hne hlast
    have hne' : items.isEmpty = false := by
      cases items with
      | nil => exact absurd rfl hne
      | cons a l => rfl
    simp [collectItems, collectRun, hi, hne', hlast]

/-- Witness for C3 (amended): after one collected item, an empty line
is appended as an empty-string item and the run continues on the
remaining inputs. -/
theorem C3_witness :
    collectItems [LogItem.pair "a" []] ("" :: ["b"])
      = collectItems ([LogItem.pair "a" []] ++ [LogItem.str (pyStrip "")]) ["b"] :=
  (C3_theorem [LogItem.pair "a" []] "" ["b"] (by decide)).2.2 (by decide) (by decide)

/-- **C8.** For every non-empty item entered in the Entry Collector, if
the first input of that item's nested sub-item loop is empty after
trimming, the nested loop ends immediately and the item is stored with
an empty sequence of sub-items (collection then resumes at the
top-level prompt). -/
theorem C8_theorem (items : List LogItem) (i first : String) (rest : List String)
    (hi : (pyStrip i).isEmpty = false) (hfirst : (pyStrip first).isEmpty = true) :
    collectRun (.subLevel items (pyStrip i) []) (first :: rest)
      = collectItems (items ++ [LogItem.pair (pyStrip i) []]) rest ∧
    collectItems items (i :: first :: rest)
      = collectItems (items ++ [LogItem.pair (pyStrip i) []]) rest := by
  constructor
  · simp [collectItems, collectRun, hfirst, lastEmptyStr]
  · simp [collectItems, collectRun, hi, hfirst, lastEmptyStr]

/-- Witness for C8: the item `"task"` followed by a whitespace-only
line is stored as `("task", [])` and collection resumes. -/
theorem C8_witness :
    collectItems [] ["task", " ", "", ""]
      = collectItems ([] ++ [LogItem.pair (pyStrip "task") []]) ["", ""] :=
  (C8_theorem [] "task" " " ["", ""] (by decide) (by decide)).2

/-- **C10.** Invariant of the collector's per-category item loop: the
finished item list never ends with an empty-string item and never
contains two consecutive empty-string items; however, an empty string
can remain as a non-final element (one empty line entered between two
accepted non-empty items), and such an element is rendered by the
Formatter as a bare `* ` bullet line with no text. -/
theorem C10_theorem :
    (∀ inputs res rest, collectItems [] inputs = some (res, rest) →
        lastFalsy res = false ∧ NoConsecEmpty res) ∧
    collectItems [] ["a", "", "", "b", "", "", ""]
      = some ([LogItem.pair "a" [], LogItem.str "", LogItem.pair "b" []], []) ∧
    create_daily_entry_text ⟨2024, 1, 2⟩
        [("Projects", [LogItem.pair "a" [], LogItem.str "", LogItem.pair "b" []])]
      = "\n## 2024-01-02\n\n### Projects\n* a\n* \n* b\n\n" := by
  refine ⟨fun inputs res rest h => ?_, by decide, by decide⟩
  exact collectRun_invariant inputs (.topLevel []) res rest List.chain'_nil h

/-- Witness for C10: the invariant applied to the concrete run whose
result keeps a non-final empty-string item. -/
theorem C10_witness :
    lastFalsy [LogItem.pair "a" [], LogItem.str "", LogItem.pair "b" []] = false ∧
    NoConsecEmpty [LogItem.pair "a" [], LogItem.str "", LogItem.pair "b" []] :=
  C10_theorem.1 ["a", "", "", "b", "", "", ""] _ [] (by decide)

theorem findSection_eq_none {d : String} :
    ∀ {l : List String}, (∀ s ∈ l, pyStartsWith s d = false) → findSection d l = none := by
  intro l
  induction l with
  | nil => intro _; rfl
  | cons s rest ih =>
    intro h
    simp only [findSection]
    rw [h s (List.mem_cons_self s rest)]
    simp only [Bool.false_eq_true, if_false]
    exact ih fun x hx => h x (List.mem_cons_of_mem s hx)

theorem findSection_first {d : String} (sect : String) (post : List String)
    (hsect : pyStartsWith sect d = true) :
    ∀ pre : List String, (∀ s ∈ pre, pyStartsWith s d = false) →
      findSection d (pre ++ sect :: post) = some sect := by
  intro pre
  induction pre with
  | nil =>
    intro _
    simp [findSection, hsect]
  | cons s rest ih =>
    intro h
    simp only [List.cons_append, findSection]
    rw [h s (List.mem_cons_self s rest)]
    simp only [Bool.false_eq_true, if_false]
    exact ih fun x hx => h x (List.mem_cons_of_mem s hx)

/-- **C4.** In single-day view mode for a date whose month file exists,
the Viewer splits the file's content on the literal separator `"\n## "`
into segments, scans segments in order, and outputs the first segment
whose text starts with the target `YYYY-MM-DD` string re-prefixed with
`"## "`; it fails with an entry-not-found-for-date error exactly when
no segment starts with the date, and with a not-found error when the
month file is absent. -/
theorem C4_theorem (gitRoot : String) (fs : FS) (d : Date) :
    (fs (create_log_directory gitRoot ++ "/" ++ fmtYM d ++ ".md") = none →
      viewSingleDay gitRoot fs d = Except.error "No logs found for specified date") ∧
    (∀ content, fs (create_log_directory gitRoot ++ "/" ++ fmtYM d ++ ".md") = some content →
      ((∀ s ∈ pySplit "\n## " content, pyStartsWith s (fmtYmd d) = false) →
        viewSingleDay gitRoot fs d = Except.error ("No entry found for " ++ fmtYmd d)) ∧
      (∀ pre sect post, pySplit "\n## " content = pre ++ sect :: post →
        (∀ s ∈ pre, pyStartsWith s (fmtYmd d) = false) →
        pyStartsWith sect (fmtYmd d) = true →
        viewSingleDay gitRoot fs d = Except.ok ("## " ++ sect))) := by
  refine ⟨fun h => ?_, fun content hc => ⟨fun hall => ?_, fun pre sect post hsplit hpre hsect => ?_⟩⟩
  · simp [viewSingleDay, h]
  · simp [viewSingleDay, hc, findSection_eq_none hall]
  · simp [viewSingleDay, hc, hsplit, findSection_first sect post hsect pre hpre]

/-- Witness for C4: on a January 2024 file holding entries for the 1st
and the 2nd, viewing the 1st returns exactly its section; a date in a
month with no file gives the not-found error; a January date with no
entry gives the entry-not-found error. -/
theorem C4_witness :
    viewSingleDay ""
        (fun p => if p = "/work_logs/2024_01.md"
          then some "# T\n\n## 2024-01-01\n\nx\n\n## 2024-01-02\ny\n" else none)
        ⟨2024, 1, 1⟩
      = Except.ok "## 2024-01-01\n\nx\n" ∧
    viewSingleDay ""
        (fun p => if p = "/work_logs/2024_01.md"
          then some "# T\n\n## 2024-01-01\n\nx\n\n## 2024-01-02\ny\n" else none)
        ⟨2024, 2, 3⟩
      = Except.error "No logs found for specified date" ∧
    viewSingleDay ""
        (fun p => if p = "/work_logs/2024_01.md"
          then some "# T\n\n## 2024-01-01\n\nx\n\n## 2024-01-02\ny\n" else none)
        ⟨2024, 1, 9⟩
      = Except.error ("No entry found for " ++ fmtYmd ⟨2024, 1, 9⟩) := by
  have h1 := C4_theorem "" (fun p => if p = "/work_logs/2024_01.md"
    then some "# T\n\n## 2024-01-01\n\nx\n\n## 2024-01-02\ny\n" else none) ⟨2024, 1, 1⟩
  have h2 := C4_theorem "" (fun p => if p = "/work_logs/2024_01.md"
    then some "# T\n\n## 2024-01-01\n\nx\n\n## 2024-01-02\ny\n" else none) ⟨2024, 2, 3⟩
  have h3 := C4_theorem "" (fun p => if p = "/work_logs/2024_01.md"
    then some "# T\n\n## 2024-01-01\n\nx\n\n## 2024-01-02\ny\n" else none) ⟨2024, 1, 9⟩
  refine ⟨?_, ?_, ?_⟩
  · exact (h1.2 "# T\n\n## 2024-01-01\n\nx\n\n## 2024-01-02\ny\n" (by decide)).2
      ["# T\n"] "2024-01-01\n\nx\n" ["2024-01-02\ny\n"] (by decide) (by decide) (by decide)
  · exact h2.1 (by decide)
  · exact (h3.2 "# T\n\n## 2024-01-01\n\nx\n\n## 2024-01-02\ny\n" (by decide)).1 (by decide)

/-- **C5.** Round-trip: appending two rendered entries for two
different dates to a fresh month file and then viewing the whole month
returns a document that contains both `## <date>` headers, in the order
the entries were appended. -/
theorem C5_theorem (gitRoot : String) (now d1 d2 : Date)
    (es1 es2 : List (String × List LogItem)) (fs : FS)
    (hfresh : fs (get_log_file_path gitRoot now) = none) (hne : d1 ≠ d2) :
    ∃ a b c, viewWholeMonth gitRoot
        (update_log_file gitRoot now
          (update_log_file gitRoot now fs (create_daily_entry_text d1 es1)).1
          (create_daily_entry_text d2 es2)).1 now
      = Except.ok (a ++ ("## " ++ fmtYmd d1) ++ b ++ ("## " ++ fmtYmd d2) ++ c) := by
  refine ⟨("# Work Log - " ++ fmtBY now ++ "\n") ++ "\n",
    "\n\n" ++ concatAll (es1.map (fun p => renderCategorySpec p.1 p.2)) ++ "\n",
    "\n\n" ++ concatAll (es2.map (fun p => renderCategorySpec p.1 p.2)), ?_⟩
  have h2 : (update_log_file gitRoot now
        (update_log_file gitRoot now fs (create_daily_entry_text d1 es1)).1
        (create_daily_entry_text d2 es2)).1
      (create_log_directory gitRoot ++ "/" ++ fmtYM now ++ ".md")
      = some ((("# Work Log - " ++ fmtBY now ++ "\n") ++ create_daily_entry_text d1 es1)
          ++ create_daily_entry_text d2 es2) := by
    simp only [get_log_file_path] at hfresh
    simp [update_log_file, get_log_file_path, fsWrite, hfresh]
  rw [viewWholeMonth, h2]
  rw [create_daily_entry_text_eq d1 es1, create_daily_entry_text_eq d2 es2,
    renderEntrySpec, renderEntrySpec]
  rw [show ("\n## " : String) = "\n" ++ "## " from rfl]
  simp only [String.append_assoc]

/-- Witness for C5 at a concrete fresh filesystem and two January 2024
dates. -/
theorem C5_witness :
    ((fun _ => none : FS) (get_log_file_path "" ⟨2024, 1, 31⟩) = none) ∧
    ∃ a b c, viewWholeMonth ""
        (update_log_file "" ⟨2024, 1, 31⟩
          (update_log_file "" ⟨2024, 1, 31⟩ (fun _ => none : FS)
            (create_daily_entry_text ⟨2024, 1, 1⟩ [("Projects", [LogItem.pair "x" []])])).1
          (create_daily_entry_text ⟨2024, 1, 2⟩ [])).1 ⟨2024, 1, 31⟩
      = Except.ok (a ++ ("## " ++ fmtYmd ⟨2024, 1, 1⟩) ++ b
          ++ ("## " ++ fmtYmd ⟨2024, 1, 2⟩) ++ c) :=
  ⟨rfl, C5_theorem "" ⟨2024, 1, 31⟩ ⟨2024, 1, 1⟩ ⟨2024, 1, 2⟩
    [("Projects", [LogItem.pair "x" []])] [] (fun _ => none : FS) rfl (by decide)⟩

end Worklog
